import Mathlib

/-!
Shallow embedding of `src/packages/duckietown/include/duckietown/dtpublisher.py`
(class `DTPublisher`, a thin wrapper around `rospy.Publisher`).

The wrapper adds three Python attributes to the underlying publisher object:
`active` (a boolean gate on `publish`), `num_of_subscribers` (a cached
connection count) and `subs_changed_callbacks` (a list of callbacks run on
every subscriber change).  The underlying `rospy` transport is opaque here:
its observable interactions (forwarded `publish` calls, `get_num_connections`
queries, callback invocations) are recorded as an event trace, and its
failures are injected as parameters.  Python exceptions are modelled with an
explicit error type; each operation returns the trace of boundary events it
produced, the attribute state of the object afterwards (Python objects
survive an exception raised inside a method), and the exception, if any.
Callbacks are opaque labels (naturals); their behaviour (return normally or
raise) is an external parameter, mirroring that the source never inspects a
callback beyond calling it with `self`.
-/

/-- Python-level exceptions the embedded code can raise or pass through:
`attributeError a` models `AttributeError` on access to the unset attribute
`a`; `callbackError cb` models an exception raised inside the registered
callback labelled `cb`; `typeError` models comparing `None` with an integer;
`rosException` models `ROSException` raised by `rospy.Publisher.__init__` on
invalid arguments; `transportError code` models a transport-level failure
raised by `rospy.Publisher.publish`. -/
inductive PyErr where
  | attributeError (attr : String)
  | callbackError (cb : Nat)
  | typeError
  | rosException
  | transportError (code : Nat)
deriving DecidableEq, Repr

/-- The Python-visible attribute state a `DTPublisher` object adds on top of
`rospy.Publisher`: `active` (line 43), `num_of_subscribers` (line 45 sets it
to `None`, modelled as `none`; line 67 overwrites it with the integer
returned by `get_num_connections()`, modelled as `some n`), and
`subs_changed_callbacks` (unset until line 47 assigns `list()`; `none` means
the attribute does not exist yet, so accessing it raises `AttributeError`). -/
structure DTPublisher where
  active : Bool
  num_of_subscribers : Option Int
  subs_changed_callbacks : Option (List Nat)
deriving DecidableEq, Repr

/-- Observable events at the wrapper/transport boundary: a forwarded
`super(DTPublisher, self).publish(msg)` call, a `self.get_num_connections()`
query together with the count the transport reported, a callback invocation
`cb_fun(self)` recording the callback label and the object state passed as
the sole argument, and the execution of lines 50-52 of `__init__` (assigning
`rospy.SubscribeListener` to `self.subscribe_listener` and patching that
class's `peer_subscribe` / `peer_unsubscribe` attributes). -/
inductive Ev where
  | superPublish (msg : Nat)
  | getNumConnections (ret : Int)
  | callbackCall (cb : Nat) (selfArg : DTPublisher)
  | assignSubscribeListener
deriving DecidableEq, Repr

/-- The loop `for cb_fun in self.subs_changed_callbacks: cb_fun(self)`
(lines 68-69): each callback is called with the object `sp` as sole
argument; `cbBeh cb = true` means callback `cb` returns normally, `false`
means it raises, which aborts the loop and propagates. -/
def runCallbacks (cbBeh : Nat → Bool) (sp : DTPublisher) :
    List Nat → List Ev × Option PyErr
  | [] => ([], none)
  | cb :: rest =>
    if cbBeh cb then
      let r := runCallbacks cbBeh sp rest
      (Ev.callbackCall cb sp :: r.1, r.2)
    else ([Ev.callbackCall cb sp], some (PyErr.callbackError cb))

/-- Method `DTPublisher.cbChangeSubscribers` (lines 66-69): first overwrite
`self.num_of_subscribers` with `self.get_num_connections()` (the transport
reports `conns` at this moment), then run every callback in
`self.subs_changed_callbacks` with `self` as sole argument.  If that
attribute is not yet set (only possible during `__init__`, line 46), the
`for` statement raises `AttributeError`; line 67 has already executed, so
the count is updated even then. -/
def DTPublisher.cbChangeSubscribers (conns : Int) (cbBeh : Nat → Bool)
    (s : DTPublisher) : List Ev × DTPublisher × Option PyErr :=
  let s1 : DTPublisher := { s with num_of_subscribers := some conns }
  match s1.subs_changed_callbacks with
  | none =>
    ([Ev.getNumConnections conns], s1,
      some (PyErr.attributeError "subs_changed_callbacks"))
  | some cbs =>
    let r := runCallbacks cbBeh s1 cbs
    (Ev.getNumConnections conns :: r.1, s1, r.2)

/-- Method `DTPublisher.__init__` (lines 41-52): `validArgs = false` models
`rospy.Publisher.__init__` rejecting the arguments with `ROSException`;
otherwise set `active = True` (line 43), set `num_of_subscribers = None`
(line 45), call `self.cbChangeSubscribers()` (line 46) with the transport
reporting `conns` connections, then assign `self.subs_changed_callbacks =
list()` (line 47) and execute lines 50-52 (the `subscribe_listener`
assignment and class patching, recorded as one event).  An exception raised
at line 46 aborts construction: no object is returned. -/
def DTPublisher.init (validArgs : Bool) (conns : Int) (cbBeh : Nat → Bool) :
    List Ev × Except PyErr DTPublisher :=
  if validArgs then
    let s0 : DTPublisher :=
      { active := true, num_of_subscribers := none,
        subs_changed_callbacks := none }
    let r := DTPublisher.cbChangeSubscribers conns cbBeh s0
    match r.2.2 with
    | some e => (r.1, Except.error e)
    | none =>
      let s2 : DTPublisher := { r.2.1 with subs_changed_callbacks := some [] }
      (r.1 ++ [Ev.assignSubscribeListener], Except.ok s2)
  else ([], Except.error PyErr.rosException)

/-- Method `DTPublisher.publish` (lines 54-64): if `self.active`, forward
the call unchanged to `rospy.Publisher.publish`; the transport's outcome for
that forwarded call is `terr` (`none` = success, `some e` = it raises `e`,
which propagates).  If `self.active` is false, nothing happens.  No
attribute is assigned in either case. -/
def DTPublisher.publish (terr : Option PyErr) (msg : Nat) (s : DTPublisher) :
    List Ev × DTPublisher × Option PyErr :=
  if s.active then ([Ev.superPublish msg], s, terr) else ([], s, none)

/-- Direct assignment `pub.active = b`: the docstring states `active` "Can
be directly assigned"; a plain Python attribute write. -/
def DTPublisher.setActive (b : Bool) (s : DTPublisher) : DTPublisher :=
  { s with active := b }

/-- Appending a callback, `pub.subs_changed_callbacks.append(cb)`: the
docstring states "Custom callbacks can be appended" to the list attribute.
If the attribute does not exist yet, the access raises `AttributeError`. -/
def DTPublisher.registerChangeCallback (cb : Nat) (s : DTPublisher) :
    DTPublisher × Option PyErr :=
  match s.subs_changed_callbacks with
  | some l => ({ s with subs_changed_callbacks := some (l ++ [cb]) }, none)
  | none => (s, some (PyErr.attributeError "subs_changed_callbacks"))

/-- Property `DTPublisher.any_subscribers` (lines 71-73):
`return self.num_of_subscribers > 0`.  A pure read: it assigns no attribute,
which the embedding reflects by not returning a state.  When the attribute
still holds `None` (only possible between lines 45 and 46 of `__init__`)
the comparison is modelled as `TypeError`, following Python 3 semantics; no
theorem below depends on that branch. -/
def DTPublisher.any_subscribers (s : DTPublisher) : Except PyErr Bool :=
  match s.num_of_subscribers with
  | some n => Except.ok (decide (n > 0))
  | none => Except.error PyErr.typeError

theorem runCallbacks_all_ok (cbBeh : Nat → Bool) (sp : DTPublisher)
    (cbs : List Nat) (h : ∀ c ∈ cbs, cbBeh c = true) :
    runCallbacks cbBeh sp cbs =
      (cbs.map (fun c => Ev.callbackCall c sp), none) := by
  induction cbs with
  | nil => rfl
  | cons cb rest ih =>
    have hcb : cbBeh cb = true := h cb (List.mem_cons_self cb rest)
    have hrest : ∀ c ∈ rest, cbBeh c = true :=
      fun c hc => h c (List.mem_cons_of_mem cb hc)
    simp [runCallbacks, hcb, ih hrest]

theorem runCallbacks_raises (cbBeh : Nat → Bool) (sp : DTPublisher)
    (pre : List Nat) (c : Nat) (post : List Nat)
    (hpre : ∀ x ∈ pre, cbBeh x = true) (hc : cbBeh c = false) :
    runCallbacks cbBeh sp (pre ++ c :: post) =
      (pre.map (fun x => Ev.callbackCall x sp) ++ [Ev.callbackCall c sp],
        some (PyErr.callbackError c)) := by
  induction pre with
  | nil => simp [runCallbacks, hc]
  | cons x rest ih =>
    have hx : cbBeh x = true := hpre x (List.mem_cons_self x rest)
    have hrest : ∀ y ∈ rest, cbBeh y = true :=
      fun y hy => hpre y (List.mem_cons_of_mem x hy)
    simp [runCallbacks, hx, ih hrest]

/-- Claim C1: for every message `m` and every publisher state, if `active`
is true then `publish m` forwards exactly one call to the transport's
publish with argument `m` (the event trace is exactly that single forwarded
call); if `active` is false, `publish m` forwards zero calls, raises no
error, changes no state and returns immediately. -/
theorem publish_gated_by_active (terr : Option PyErr) (m : Nat)
    (s : DTPublisher) :
    (s.active = true →
      (DTPublisher.publish terr m s).1 = [Ev.superPublish m]) ∧
    (s.active = false →
      DTPublisher.publish terr m s = ([], s, none)) := by
  constructor <;> intro h <;> simp [DTPublisher.publish, h]

/-- Witness for C1 at concrete active and inactive states with message 7. -/
theorem publish_gated_by_active_witness :
    (DTPublisher.publish none 7
        ⟨true, some 0, some []⟩).1 = [Ev.superPublish 7] ∧
    DTPublisher.publish none 7 ⟨false, some 0, some []⟩ =
      ([], ⟨false, some 0, some []⟩, none) :=
  ⟨(publish_gated_by_active none 7 ⟨true, some 0, some []⟩).1 rfl,
    (publish_gated_by_active none 7 ⟨false, some 0, some []⟩).2 rfl⟩

/-- Claim C2: on a subscriber-change notification where the transport
reports `conns` connections and no callback raises, the handler first
re-queries the connection count and overwrites `num_of_subscribers` with it,
and then invokes every callback in `subs_changed_callbacks`, in registration
order, each exactly once, passing the publisher object itself (with the
already-updated count) as the sole argument. -/
theorem cbChangeSubscribers_updates_then_calls (conns : Int)
    (cbBeh : Nat → Bool) (s : DTPublisher) (cbs : List Nat)
    (hattr : s.subs_changed_callbacks = some cbs)
    (hok : ∀ c ∈ cbs, cbBeh c = true) :
    DTPublisher.cbChangeSubscribers conns cbBeh s =
      (Ev.getNumConnections conns ::
        cbs.map (fun c =>
          Ev.callbackCall c { s with num_of_subscribers := some conns }),
        { s with num_of_subscribers := some conns }, none) := by
  simp [DTPublisher.cbChangeSubscribers, hattr]
  rw [runCallbacks_all_ok cbBeh _ cbs hok]
  exact ⟨rfl, rfl⟩

/-- Witness for C2: two callbacks `1, 2` registered in that order, the
transport reporting 3 connections; the trace is the query followed by the
two calls in order, each receiving the updated object. -/
theorem cbChangeSubscribers_updates_then_calls_witness :
    DTPublisher.cbChangeSubscribers 3 (fun _ => true)
        ⟨true, some 0, some [1, 2]⟩ =
      (Ev.getNumConnections 3 ::
        [1, 2].map (fun c => Ev.callbackCall c ⟨true, some 3, some [1, 2]⟩),
        ⟨true, some 3, some [1, 2]⟩, none) :=
  cbChangeSubscribers_updates_then_calls 3 (fun _ => true)
    ⟨true, some 0, some [1, 2]⟩ [1, 2] rfl (by decide)

/-- Claim C3 (evaluation at the failing input): with valid constructor
arguments and the transport reporting 0 connections, construction does not
complete normally; `cbChangeSubscribers` is called at line 46 and its
callback loop raises `AttributeError` because `subs_changed_callbacks` is
only assigned at line 47. -/
theorem init_valid_args_raises :
    DTPublisher.init true 0 (fun _ => true) =
      ([Ev.getNumConnections 0],
        Except.error (PyErr.attributeError "subs_changed_callbacks")) := rfl

/-- Claim C4 (evaluation of the code): the `subscribe_listener` assignment
and patching block (lines 49-52) never executes on any construction
attempt, valid arguments or not, because line 46 raises first; no
notification handler is ever linked during construction. -/
theorem init_never_reaches_listener_block (validArgs : Bool) (conns : Int)
    (cbBeh : Nat → Bool) :
    Ev.assignSubscribeListener ∉ (DTPublisher.init validArgs conns cbBeh).1 := by
  cases validArgs <;>
    simp [DTPublisher.init, DTPublisher.cbChangeSubscribers]

/-- Claim C5: `any_subscribers` returns exactly the truth of
`num_of_subscribers > 0` — false when the count is 0 and true when it is at
least 1.  It is a pure read: the embedding of the property returns no
state, matching the source, which performs no assignment. -/
theorem any_subscribers_iff_pos (s : DTPublisher) (n : Int)
    (h : s.num_of_subscribers = some n) :
    DTPublisher.any_subscribers s = Except.ok (decide (n > 0)) ∧
    (n = 0 → DTPublisher.any_subscribers s = Except.ok false) ∧
    (1 ≤ n → DTPublisher.any_subscribers s = Except.ok true) := by
  refine ⟨by simp [DTPublisher.any_subscribers, h], ?_, ?_⟩ <;> intro hn <;>
    simp [DTPublisher.any_subscribers, h] <;> omega

/-- Witness for C5 at a state with 2 subscribers and one with 0. -/
theorem any_subscribers_iff_pos_witness :
    DTPublisher.any_subscribers ⟨true, some 2, some []⟩ = Except.ok true ∧
    DTPublisher.any_subscribers ⟨true, some 0, some []⟩ = Except.ok false :=
  ⟨(any_subscribers_iff_pos ⟨true, some 2, some []⟩ 2 rfl).2.2 (by decide),
    (any_subscribers_iff_pos ⟨true, some 0, some []⟩ 0 rfl).2.1 rfl⟩

/-- Claim C6: setting `active` to false, publishing `m1`, setting `active`
back to true and publishing `m2` forwards exactly the second call and not
the first: the first publish produces no event, no error and no state
change, and the second produces exactly the forwarded call with `m2`. -/
theorem toggle_forwards_second_only (s0 : DTPublisher) (m1 m2 : Nat)
    (t1 t2 : Option PyErr) :
    DTPublisher.publish t1 m1 (DTPublisher.setActive false s0) =
      ([], DTPublisher.setActive false s0, none) ∧
    (DTPublisher.publish t2 m2 (DTPublisher.setActive true
      (DTPublisher.publish t1 m1 (DTPublisher.setActive false s0)).2.1)).1 =
      [Ev.superPublish m2] := by
  constructor <;> simp [DTPublisher.publish, DTPublisher.setActive]

/-- Claim C7: if during a subscriber-change notification the callbacks
before `c` succeed and callback `c` raises, the handler invokes the
preceding callbacks and `c` (each with the object as sole argument), does
not invoke any callback registered after `c`, and the callback's exception
propagates unmodified to the caller of the notification. -/
theorem cbChangeSubscribers_callback_exception (conns : Int)
    (cbBeh : Nat → Bool) (s : DTPublisher) (pre : List Nat) (c : Nat)
    (post : List Nat)
    (hattr : s.subs_changed_callbacks = some (pre ++ c :: post))
    (hpre : ∀ x ∈ pre, cbBeh x = true) (hc : cbBeh c = false) :
    DTPublisher.cbChangeSubscribers conns cbBeh s =
      (Ev.getNumConnections conns ::
        (pre.map (fun x =>
          Ev.callbackCall x { s with num_of_subscribers := some conns }) ++
          [Ev.callbackCall c { s with num_of_subscribers := some conns }]),
        { s with num_of_subscribers := some conns },
        some (PyErr.callbackError c)) := by
  simp [DTPublisher.cbChangeSubscribers, hattr]
  rw [runCallbacks_raises cbBeh _ pre c post hpre hc]
  exact ⟨rfl, rfl⟩

/-- Witness for C7: callbacks `4, 9, 11` registered; `4` succeeds, `9`
raises; `11` is never invoked and the error from `9` is the result. -/
theorem cbChangeSubscribers_callback_exception_witness :
    DTPublisher.cbChangeSubscribers 2 (fun c => decide (c < 9))
        ⟨true, some 0, some [4, 9, 11]⟩ =
      (Ev.getNumConnections 2 ::
        ([4].map (fun x =>
          Ev.callbackCall x ⟨true, some 2, some [4, 9, 11]⟩) ++
          [Ev.callbackCall 9 ⟨true, some 2, some [4, 9, 11]⟩]),
        ⟨true, some 2, some [4, 9, 11]⟩,
        some (PyErr.callbackError 9)) :=
  cbChangeSubscribers_callback_exception 2 (fun c => decide (c < 9))
    ⟨true, some 0, some [4, 9, 11]⟩ [4] 9 [11] rfl (by decide) (by decide)

/-- Claim C8: when `active` is true and the transport's publish raises `e`,
that very error propagates through the wrapper's `publish` unmodified; the
forwarded call happens exactly once (no retry, recovery or fallback) and
the wrapper's state is untouched. -/
theorem publish_propagates_transport_error (e : PyErr) (m : Nat)
    (s : DTPublisher) (h : s.active = true) :
    DTPublisher.publish (some e) m s = ([Ev.superPublish m], s, some e) := by
  simp [DTPublisher.publish, h]

/-- Witness for C8: an active publisher whose transport raises
`transportError 42` while publishing message 5. -/
theorem publish_propagates_transport_error_witness :
    DTPublisher.publish (some (PyErr.transportError 42)) 5
        ⟨true, some 1, some []⟩ =
      ([Ev.superPublish 5], ⟨true, some 1, some []⟩,
        some (PyErr.transportError 42)) :=
  publish_propagates_transport_error (PyErr.transportError 42) 5
    ⟨true, some 1, some []⟩ rfl

/-- Claim C9: after a subscriber-change notification during which the
transport reported `conns` connections, `num_of_subscribers` equals exactly
`conns`; and no other operation of the wrapper modifies it — `publish`
leaves the whole state unchanged, direct assignment to `active` and
appending a callback leave the count unchanged (`any_subscribers` returns
no state at all, see its definition). -/
theorem num_of_subscribers_only_updated_by_handler (conns : Int)
    (cbBeh : Nat → Bool) (terr : Option PyErr) (m : Nat) (b : Bool)
    (cb : Nat) (s : DTPublisher) :
    (DTPublisher.cbChangeSubscribers conns cbBeh s).2.1.num_of_subscribers =
      some conns ∧
    (DTPublisher.publish terr m s).2.1 = s ∧
    (DTPublisher.setActive b s).num_of_subscribers = s.num_of_subscribers ∧
    (DTPublisher.registerChangeCallback cb s).1.num_of_subscribers =
      s.num_of_subscribers := by
  refine ⟨?_, ?_, rfl, ?_⟩
  · unfold DTPublisher.cbChangeSubscribers
    cases hm : s.subs_changed_callbacks <;> simp [hm]
  · unfold DTPublisher.publish
    cases h : s.active <;> simp [h]
  · unfold DTPublisher.registerChangeCallback
    cases hm : s.subs_changed_callbacks <;> simp [hm]

/-- Claim C10: during construction with valid transport arguments,
`cbChangeSubscribers` (line 46) runs before `subs_changed_callbacks` is
assigned (line 47), so its callback-iteration step accesses an attribute
that does not yet exist and construction takes the error branch: for every
reported connection count and every callback behaviour, `__init__` queries
the count once and then raises `AttributeError`. -/
theorem init_raises_before_assigning_callbacks (conns : Int)
    (cbBeh : Nat → Bool) :
    DTPublisher.init true conns cbBeh =
      ([Ev.getNumConnections conns],
        Except.error (PyErr.attributeError "subs_changed_callbacks")) := by
  simp [DTPublisher.init, DTPublisher.cbChangeSubscribers]
